import Mathlib

/-!
Shallow embedding of the utuntap crate (TUN/TAP device opening library).

The crate has three compile-time backends of `OpenOptions::open`:
  * Linux (`src/lib.rs` cfg linux): open `/dev/net/tun`, build an ifreq-style
    `Request` (16-byte name field + short flags), issue the TUNSETIFF ioctl,
    read the possibly kernel-rewritten name back.
  * OpenBSD (`src/lib.rs` cfg openbsd): `device_name().expect(...)`, then open
    `/dev/{name}` directly.
  * macOS (`src/lib.rs` cfg macos): system control socket, CTLIOCGINFO ioctl,
    connect, UTUN_OPT_IFNAME getsockopt, fcntl(F_SETFD)/(F_SETFL).

Kernel interactions are modelled by explicit environment records whose fields
are oracles for the success/failure of each system call; panics
(`expect`, `unwrap`, `unimplemented!`) are modelled as an explicit
`panicked`/`panic` outcome; `Err(...)` returns are `errored`.  Descriptors
that the code leaves open when it returns an error are collected in an
explicit leak list, so resource-cleanup claims become statements about
that list.
-/

namespace Utuntap

/-- `Mode` from `src/lib.rs`: `enum Mode { Tun, Tap }`. -/
inductive Mode where
  | Tun
  | Tap
deriving DecidableEq, Repr

/-- Outcome of a computation that can panic (Rust `expect` / `unimplemented!`). -/
inductive Outcome (α : Type) where
  | panic (msg : String)
  | ok (val : α)
deriving DecidableEq, Repr

/-- Outcome of a fallible call: Rust panic, `Err(..)` return, or `Ok` value. -/
inductive CallResult (α : Type) where
  | panicked (msg : String)
  | errored
  | ok (val : α)
deriving DecidableEq, Repr

/-- `impl fmt::Display for Mode`, the non-macOS variant (`src/lib.rs:22-29`):
`Tap` displays as `"tap"`, `Tun` as `"tun"`. -/
def Mode.text : Mode → String
  | .Tap => "tap"
  | .Tun => "tun"

/-- `impl fmt::Display for Mode`, the macOS variant (`src/lib.rs:31-38`):
`Tap` hits `unimplemented!("TAP is not supported on macOS")` (a panic),
`Tun` displays as `"utun"`. -/
def Mode.textMacos : Mode → Outcome String
  | .Tap => .panic "TAP is not supported on macOS"
  | .Tun => .ok "utun"

/-- The `OpenOptions` struct of `src/lib.rs:41-50`.  The `number` field is
`Option<u8>`, modelled as `Option (Fin 256)`; the cfg-gated fields
(`nonblock`, `packet_info`) are always present here, as on a Unix/Linux
build. -/
structure OpenOptions where
  mode : Mode
  number : Option (Fin 256)
  read : Bool
  write : Bool
  nonblock : Bool
  packet_info : Bool
deriving DecidableEq, Repr

/-- `OpenOptions::new` (`src/lib.rs:53-64`). -/
def OpenOptions.new : OpenOptions :=
  ⟨Mode.Tun, none, true, true, false, false⟩

/-- `impl Default for OpenOptions` (`src/lib.rs:271-275`): delegates to `new`. -/
def defaultOptions : OpenOptions :=
  OpenOptions.new

/-- Setter `OpenOptions::read` (`src/lib.rs:66-69`). -/
def OpenOptions.setRead (o : OpenOptions) (enabled : Bool) : OpenOptions :=
  ⟨o.mode, o.number, enabled, o.write, o.nonblock, o.packet_info⟩

/-- Setter `OpenOptions::write` (`src/lib.rs:71-74`). -/
def OpenOptions.setWrite (o : OpenOptions) (enabled : Bool) : OpenOptions :=
  ⟨o.mode, o.number, o.read, enabled, o.nonblock, o.packet_info⟩

/-- Setter `OpenOptions::nonblock` (`src/lib.rs:76-80`). -/
def OpenOptions.setNonblock (o : OpenOptions) (enabled : Bool) : OpenOptions :=
  ⟨o.mode, o.number, o.read, o.write, enabled, o.packet_info⟩

/-- Setter `OpenOptions::mode` (`src/lib.rs:82-85`). -/
def OpenOptions.setMode (o : OpenOptions) (m : Mode) : OpenOptions :=
  ⟨m, o.number, o.read, o.write, o.nonblock, o.packet_info⟩

/-- Setter `OpenOptions::number` (`src/lib.rs:87-90`). -/
def OpenOptions.setNumber (o : OpenOptions) (value : Fin 256) : OpenOptions :=
  ⟨o.mode, some value, o.read, o.write, o.nonblock, o.packet_info⟩

/-- Setter `OpenOptions::packet_info` (`src/lib.rs:92-96`). -/
def OpenOptions.setPacketInfo (o : OpenOptions) (enabled : Bool) : OpenOptions :=
  ⟨o.mode, o.number, o.read, o.write, o.nonblock, enabled⟩

/-- `OpenOptions::device_name` (`src/lib.rs:98-104`) on a non-macOS build:
`format!("{}{}", self.mode, number)` when `number` is set, else `None`. -/
def OpenOptions.device_name (o : OpenOptions) : Option String :=
  o.number.map (fun n => Mode.text o.mode ++ Nat.repr n.val)

/-- `OpenOptions::device_name` on a macOS build: same body, but the `Display`
for `Mode` is the macOS one, so formatting `Tap` panics and `Tun` yields
`"utun{number}"`. -/
def OpenOptions.device_name_macos (o : OpenOptions) : Outcome (Option String) :=
  match o.number with
  | none => .ok none
  | some n =>
    match Mode.textMacos o.mode with
    | .panic m => .panic m
    | .ok t => .ok (some (t ++ Nat.repr n.val))

/-! ### UTF-8 encoding and decoding

`str::as_bytes` / `String::from_utf8` from the Rust standard library,
modelled byte-for-byte (the decoder performs full UTF-8 validation:
continuation ranges, overlong forms, surrogates, and the 0x10FFFF cap,
exactly the sequences Rust accepts). -/

/-- UTF-8 encoding of one scalar value (one Rust `char`). -/
def charUtf8 (c : Char) : List Nat :=
  let n := c.toNat
  if n < 0x80 then [n]
  else if n < 0x800 then
    [0xC0 + n / 64, 0x80 + n % 64]
  else if n < 0x10000 then
    [0xE0 + n / 4096, 0x80 + (n / 64) % 64, 0x80 + n % 64]
  else
    [0xF0 + n / 262144, 0x80 + (n / 4096) % 64, 0x80 + (n / 64) % 64, 0x80 + n % 64]

/-- UTF-8 encoding of a string (`str::as_bytes`). -/
def utf8Encode (s : String) : List Nat :=
  s.data.foldr (fun c acc => charUtf8 c ++ acc) []

/-- UTF-8 validating decoder (`String::from_utf8`): `none` exactly on the
byte sequences Rust rejects. -/
def utf8Decode? : List Nat → Option (List Char)
  | [] => some []
  | b0 :: rest =>
    if b0 < 0x80 then
      match utf8Decode? rest with
      | some cs => some (Char.ofNat b0 :: cs)
      | none => none
    else if b0 < 0xC2 then none
    else if b0 < 0xE0 then
      match rest with
      | b1 :: rest1 =>
        if 0x80 ≤ b1 ∧ b1 < 0xC0 then
          match utf8Decode? rest1 with
          | some cs => some (Char.ofNat ((b0 - 0xC0) * 64 + (b1 - 0x80)) :: cs)
          | none => none
        else none
      | [] => none
    else if b0 < 0xF0 then
      match rest with
      | b1 :: b2 :: rest2 =>
        if (if b0 = 0xE0 then 0xA0 else 0x80) ≤ b1 ∧
            b1 < (if b0 = 0xED then 0xA0 else 0xC0) ∧
            0x80 ≤ b2 ∧ b2 < 0xC0 then
          match utf8Decode? rest2 with
          | some cs =>
            some (Char.ofNat ((b0 - 0xE0) * 4096 + (b1 - 0x80) * 64 + (b2 - 0x80)) :: cs)
          | none => none
        else none
      | _ => none
    else if b0 < 0xF5 then
      match rest with
      | b1 :: b2 :: b3 :: rest3 =>
        if (if b0 = 0xF0 then 0x90 else 0x80) ≤ b1 ∧
            b1 < (if b0 = 0xF4 then 0x90 else 0xC0) ∧
            0x80 ≤ b2 ∧ b2 < 0xC0 ∧ 0x80 ≤ b3 ∧ b3 < 0xC0 then
          match utf8Decode? rest3 with
          | some cs =>
            some (Char.ofNat
              ((b0 - 0xF0) * 262144 + (b1 - 0x80) * 4096 + (b2 - 0x80) * 64 + (b3 - 0x80)) :: cs)
          | none => none
        else none
      | _ => none
    else none

/-! ### Linux backend (`src/interface/linux.rs` and `src/lib.rs:106-143`) -/

/-- `IFNAMSIZ`, the width of the ifreq name field. -/
def IFNAMSIZ : Nat := 16

/-- `IFF_TUN` (`src/lib.rs:125`). -/
def IFF_TUN : Nat := 0x0001

/-- `IFF_TAP` (`src/lib.rs:126`). -/
def IFF_TAP : Nat := 0x0002

/-- `IFF_NO_PI` (`src/lib.rs:127`). -/
def IFF_NO_PI : Nat := 0x1000

/-- The flags computation of the Linux `open` (`src/lib.rs:124-137`):
select `IFF_TUN`/`IFF_TAP` by mode, then or in `IFF_NO_PI` unless
`packet_info` is set. -/
def linuxFlags (mode : Mode) (packet_info : Bool) : Nat :=
  let base :=
    match mode with
    | .Tun => IFF_TUN
    | .Tap => IFF_TAP
  if packet_info then base else Nat.lor base IFF_NO_PI

/-- The mode-select bit as the specification words it: 0x0001 for Tun,
0x0002 for Tap (spec-side definition, compared against `linuxFlags`). -/
def modeSelect : Mode → Nat
  | .Tun => 0x0001
  | .Tap => 0x0002

/-- The `name` helper of `src/interface/linux.rs:52-58`: a zeroed
`[u8; IFNAMSIZ]` buffer into whose first `len` bytes the device name is
copied.  `name[..device_name.len()].clone_from_slice(..)` panics when the
name is longer than the buffer; that panic is the `Outcome.panic` branch. -/
def nameBytes (device_name : Option String) : Outcome (List Nat) :=
  match device_name with
  | none => .ok (List.replicate IFNAMSIZ 0)
  | some s =>
    let bs := utf8Encode s
    if bs.length ≤ IFNAMSIZ then
      .ok (bs ++ List.replicate (IFNAMSIZ - bs.length) 0)
    else
      .panic "slice index out of range"

/-- The `Request` struct of `src/interface/linux.rs:12-16`: a 16-byte name
field and a short flags field (the union's only member). -/
structure Request where
  name : List Nat
  flags : Nat
deriving DecidableEq, Repr

/-- `Request::with_flags(self.device_name(), flags)` as built by the Linux
`open` (`src/lib.rs:139` with `src/interface/linux.rs:24-29`). -/
def requestOf (o : OpenOptions) : Outcome Request :=
  match nameBytes o.device_name with
  | .panic m => .panic m
  | .ok nm => .ok ⟨nm, linuxFlags o.mode o.packet_info⟩

/-- Kernel-side oracle for the Linux `Request::set_tuntap` call:
whether the TUNSETIFF ioctl succeeds, and the contents of the request's
name field after the call (the kernel may rewrite it). -/
structure LinuxEnv where
  ioctlOk : Bool
  rewrittenName : List Nat
deriving DecidableEq, Repr

/-- `Request::set_tuntap` (`src/interface/linux.rs:31-39`): issue the
TUNSETIFF ioctl (propagating failure as `Err`), then take the name field's
bytes up to the first zero byte and decode them with `String::from_utf8`,
panicking with `"Incorrect filename"` (`expect`) when they are not valid
UTF-8. -/
def set_tuntap (_req : Request) (env : LinuxEnv) : CallResult String :=
  if env.ioctlOk then
    let bytes := env.rewrittenName.takeWhile (· ≠ 0)
    match utf8Decode? bytes with
    | some cs => .ok (String.mk cs)
    | none => .panicked "Incorrect filename"
  else
    .errored

/-! ### OpenBSD backend (`src/lib.rs:145-164`) -/

/-- The OpenBSD `open`: `device_name().expect("Unknown device number.")`
then a single filesystem open of `/dev/{filename}` whose success is the
`openOk` oracle.  Result paired with the number of filesystem opens
attempted. -/
def openbsdOpen (o : OpenOptions) (openOk : Bool) : CallResult String × Nat :=
  match o.device_name with
  | none => (.panicked "Unknown device number.", 0)
  | some filename =>
    if openOk then (.ok filename, 1) else (.errored, 1)

/-! ### macOS backend (`src/lib.rs:166-268`) -/

/-- Kernel-side oracles for the macOS `open`: the fd returned by
`socket(PF_SYSTEM, SOCK_DGRAM, SYSPROTO_CONTROL)` (negative means failure),
and the success of the CTLIOCGINFO ioctl, `connect`, the UTUN_OPT_IFNAME
`getsockopt`, and the two `fcntl` calls.  `kernelIfname` is the interface
name the kernel reports through the getsockopt buffer. -/
structure MacosEnv where
  socketFd : Int
  ioctlOk : Bool
  ctlId : Nat
  connectOk : Bool
  getsockoptOk : Bool
  kernelIfname : String
  fcntlCloexecOk : Bool
  fcntlNonblockOk : Bool
deriving DecidableEq, Repr

/-- The macOS `open` (`src/lib.rs:166-268`), step for step:
`unimplemented!` on Tap; `socket`; CTLIOCGINFO ioctl; `sockaddr_ctl` with
`sc_unit` from `self.number.expect("missing device number")`; `connect`;
UTUN_OPT_IFNAME `getsockopt` (its buffer is filled but never read
afterwards); `fcntl(F_SETFD, FD_CLOEXEC)`; `fcntl(F_SETFL, O_NONBLOCK)`
when `nonblock`; finally `File::from_raw_fd(fd)` and
`self.device_name().unwrap()` as the returned name.  The second component
lists descriptors still open when control leaves without handing them to
the caller (the source never calls `close` on any failure path). -/
def macosOpen (o : OpenOptions) (env : MacosEnv) : CallResult (Int × String) × List Int :=
  if o.mode = Mode.Tap then
    (.panicked "TAP mode is not supported on macOS", [])
  else
    let fd := env.socketFd
    if fd < 0 then (.errored, [])
    else if ¬ env.ioctlOk then (.errored, [fd])
    else
      match o.number with
      | none => (.panicked "missing device number", [fd])
      | some _ =>
        if ¬ env.connectOk then (.errored, [fd])
        else if ¬ env.getsockoptOk then (.errored, [fd])
        else if ¬ env.fcntlCloexecOk then (.errored, [fd])
        else if o.nonblock ∧ ¬ env.fcntlNonblockOk then (.errored, [fd])
        else
          match o.device_name_macos with
          | .panic m => (.panicked m, [fd])
          | .ok none => (.panicked "called unwrap on None", [fd])
          | .ok (some s) => (.ok (fd, s), [])

/-! ### Facade surfaces (`src/tun.rs`, `src/tap.rs`)

Fact tables transcribed from the two facade modules: the builder methods
each one declares, and the shape of its `open`. -/

/-- Builder setters declared by `tun::OpenOptions` (`src/tun.rs`). -/
def tunFacadeSetters : List String :=
  ["read", "write", "nonblock", "number", "packet_info"]

/-- Builder setters declared by `tap::OpenOptions` (`src/tap.rs`) — note the
missing `number`. -/
def tapFacadeSetters : List String :=
  ["read", "write", "nonblock", "packet_info"]

/-- Shape of a facade `open` method: how many arguments it takes beyond
`self`, and whether it returns the resolved name alongside the file. -/
structure OpenShape where
  numArgs : Nat
  returnsResolvedName : Bool
deriving DecidableEq, Repr

/-- `tun::OpenOptions::open(&mut self) -> Result<(File, String)>`
(`src/tun.rs:195-198`). -/
def tunOpenShape : OpenShape := ⟨0, true⟩

/-- `tap::OpenOptions::open(&mut self, number: u32) -> Result<File>`
(`src/tap.rs:192-194`). -/
def tapOpenShape : OpenShape := ⟨1, false⟩

/-- Number of non-`self` parameters of the shared `OpenOptions::open` in
`src/lib.rs` (every cfg variant takes none); `tap.rs` passes it one. -/
def sharedOpenNumArgs : Nat := 0

/-! ### Concrete configurations and environments used by the claims -/

/-- Tun configuration with number 0 and all defaults. -/
def cfgTun0 : OpenOptions := ⟨Mode.Tun, some 0, true, true, false, false⟩

/-- Tun configuration with number 3 and all defaults. -/
def cfgTun3 : OpenOptions := ⟨Mode.Tun, some 3, true, true, false, false⟩

/-- Tun configuration with number 0 and nonblock set. -/
def cfgTun0Nb : OpenOptions := ⟨Mode.Tun, some 0, true, true, true, false⟩

/-- macOS environment where the CTLIOCGINFO ioctl fails after `socket`
returned fd 3. -/
def envIoctlFail : MacosEnv := ⟨3, false, 7, true, true, "utun0", true, true⟩

/-- macOS environment where `connect` fails after `socket` returned fd 3. -/
def envConnectFail : MacosEnv := ⟨3, true, 7, false, true, "utun0", true, true⟩

/-- macOS environment where the UTUN_OPT_IFNAME `getsockopt` fails. -/
def envGetsockoptFail : MacosEnv := ⟨3, true, 7, true, false, "utun0", true, true⟩

/-- macOS environment where `fcntl(F_SETFD, FD_CLOEXEC)` fails. -/
def envCloexecFail : MacosEnv := ⟨3, true, 7, true, true, "utun0", false, true⟩

/-- macOS environment where `fcntl(F_SETFL, O_NONBLOCK)` fails. -/
def envNonblockFail : MacosEnv := ⟨3, true, 7, true, true, "utun0", true, false⟩

/-- macOS environment where every call succeeds and the kernel reports the
interface name `"utun2"` through the getsockopt buffer. -/
def envKernel2 : MacosEnv := ⟨3, true, 7, true, true, "utun2", true, true⟩

/-- A request record with an all-zero name field (kernel auto-assign) and
Tun/no-packet-info flags. -/
def req0 : Request := ⟨List.replicate IFNAMSIZ 0, 0x1001⟩

/-- Linux environment: ioctl succeeds, kernel rewrote the name field to the
bytes of `"tun10"` followed by zero padding. -/
def envName10 : LinuxEnv :=
  ⟨true, [116, 117, 110, 49, 48, 0, 0, 0, 0, 0, 0, 0, 0, 0, 0, 0]⟩

/-- Linux environment: ioctl succeeds, but the name field holds a byte
(0xFF) that is not valid UTF-8. -/
def envNameBad : LinuxEnv :=
  ⟨true, [255, 116, 117, 110, 0, 0, 0, 0, 0, 0, 0, 0, 0, 0, 0, 0]⟩

/-! ### Theorems -/

set_option maxRecDepth 100000

/-- Every candidate device name is at most 6 UTF-8 bytes (mode Tun). -/
lemma nameLen_tun (n : Fin 256) :
    (utf8Encode (Mode.text Mode.Tun ++ Nat.repr n.val)).length ≤ 6 := by
  revert n; decide

/-- Every candidate device name is at most 6 UTF-8 bytes (mode Tap). -/
lemma nameLen_tap (n : Fin 256) :
    (utf8Encode (Mode.text Mode.Tap ++ Nat.repr n.val)).length ≤ 6 := by
  revert n; decide

/-- Every candidate device name is at most 6 UTF-8 bytes. -/
lemma nameLen (m : Mode) (n : Fin 256) :
    (utf8Encode (Mode.text m ++ Nat.repr n.val)).length ≤ 6 := by
  cases m
  · exact nameLen_tun n
  · exact nameLen_tap n

/-- C9: a freshly constructed configuration (`OpenOptions::new`, and the
`Default` instance, which delegates to `new`) has mode Tun, number unset,
read = true, write = true, nonblock = false, packet_info = false. -/
theorem C9_defaults :
    OpenOptions.new.mode = Mode.Tun ∧ OpenOptions.new.number = none ∧
    OpenOptions.new.read = true ∧ OpenOptions.new.write = true ∧
    OpenOptions.new.nonblock = false ∧ OpenOptions.new.packet_info = false ∧
    defaultOptions = OpenOptions.new := by decide

/-- C1: on the macOS (control-socket) backend the source returns errors from
the CTLIOCGINFO ioctl, `connect`, `getsockopt` and both `fcntl` steps
without ever closing the socket created first — the descriptor (here fd 3)
is still open on every one of these failure returns, refuting the claim
that no open descriptor remains on any failure path. -/
theorem C1_descriptor_leak_on_failure :
    macosOpen cfgTun0 envIoctlFail = (CallResult.errored, [3]) ∧
    macosOpen cfgTun0 envConnectFail = (CallResult.errored, [3]) ∧
    macosOpen cfgTun0 envGetsockoptFail = (CallResult.errored, [3]) ∧
    macosOpen cfgTun0 envCloexecFail = (CallResult.errored, [3]) ∧
    macosOpen cfgTun0Nb envNonblockFail = (CallResult.errored, [3]) := by decide

/-- C2: on the macOS backend a fully successful open with requested number 3
returns the literal concatenation `"utun3"` (`self.device_name().unwrap()`)
even though the kernel reported `"utun2"` through the UTUN_OPT_IFNAME
getsockopt buffer — the queried name is discarded, refuting the claim that
the getsockopt-obtained name is returned. -/
theorem C2_resolved_name_ignores_kernel :
    envKernel2.kernelIfname = "utun2" ∧
    macosOpen cfgTun3 envKernel2 = (CallResult.ok (3, "utun3"), []) ∧
    "utun3" ≠ "utun2" := by decide

/-- C3: on the OpenBSD (path-based) backend a configuration without a number
panics (`expect("Unknown device number.")`) — not a typed error — and
attempts no filesystem open (the open count is 0). -/
theorem C3_missing_number_panics_without_open (m : Mode) (r w nb pi : Bool)
    (openOk : Bool) :
    openbsdOpen ⟨m, none, r, w, nb, pi⟩ openOk =
      (CallResult.panicked "Unknown device number.", 0) := rfl

/-- C4: on the macOS backend every Tap configuration panics via
`unimplemented!` — not a typed error — before any socket is created (the
leak list is empty because no descriptor ever existed). -/
theorem C4_tap_panics_before_socket (num : Option (Fin 256)) (r w nb pi : Bool)
    (env : MacosEnv) :
    macosOpen ⟨Mode.Tap, num, r, w, nb, pi⟩ env =
      (CallResult.panicked "TAP mode is not supported on macOS", []) := rfl

/-- C5: the Tap facade does not expose the same surface as the Tun facade:
it lacks the `number` setter, and its `open` takes one extra argument and
does not return the resolved name, unlike both the Tun facade's `open` and
the shared `OpenOptions::open` it delegates to. -/
theorem C5_facade_surface_mismatch :
    ("number" ∈ tunFacadeSetters ∧ "number" ∉ tapFacadeSetters) ∧
    tapOpenShape ≠ tunOpenShape ∧
    tapOpenShape.numArgs ≠ sharedOpenNumArgs := by decide

/-- C7 counterexample: on the macOS build, `device_name()` for mode Tun and
number 0 is `"utun0"`, which is neither `"tun0"` nor `"tap0"` — the claim
that `device_name()` always returns the `"tun{n}"`/`"tap{n}"` concatenation
fails on that backend. -/
theorem C7_counterexample :
    OpenOptions.device_name_macos cfgTun0 = Outcome.ok (some "utun0") ∧
    "utun0" ≠ "tun0" ∧ "utun0" ≠ "tap0" := by decide

/-- C7 (amended): on non-macOS builds `device_name()` is exactly
`"tun{number}"`/`"tap{number}"` when `number` is set and `none` otherwise;
on the macOS build the mode word for Tun is `"utun"` (giving
`"utun{number}"`), formatting mode Tap panics, and an unset number still
gives `none`. -/
theorem C7_device_name_amended (m : Mode) (n : Fin 256) (r w nb pi : Bool) :
    OpenOptions.device_name ⟨Mode.Tun, some n, r, w, nb, pi⟩ =
      some ("tun" ++ Nat.repr n.val) ∧
    OpenOptions.device_name ⟨Mode.Tap, some n, r, w, nb, pi⟩ =
      some ("tap" ++ Nat.repr n.val) ∧
    OpenOptions.device_name ⟨m, none, r, w, nb, pi⟩ = none ∧
    OpenOptions.device_name_macos ⟨Mode.Tun, some n, r, w, nb, pi⟩ =
      Outcome.ok (some ("utun" ++ Nat.repr n.val)) ∧
    OpenOptions.device_name_macos ⟨Mode.Tap, some n, r, w, nb, pi⟩ =
      Outcome.panic "TAP is not supported on macOS" ∧
    OpenOptions.device_name_macos ⟨m, none, r, w, nb, pi⟩ = Outcome.ok none :=
  ⟨rfl, rfl, rfl, rfl, rfl, rfl⟩

/-- C6: on the Linux (ioctl-attach) backend, for every configuration the
flags field placed in the request record is exactly the bitwise-OR of the
mode-select bit (0x0001 for Tun, 0x0002 for Tap) with 0x1000 when
`packet_info` is false, and the mode-select bit alone when it is true. -/
theorem C6_request_flags (o : OpenOptions) :
    ∃ nm, requestOf o =
      Outcome.ok ⟨nm, Nat.lor (modeSelect o.mode) (if o.packet_info then 0 else 0x1000)⟩ := by
  obtain ⟨m, num, r, w, nb, pi⟩ := o
  have hflags : linuxFlags m pi =
      Nat.lor (modeSelect m) (if pi then 0 else 0x1000) := by
    cases m <;> cases pi <;> decide
  cases num with
  | none =>
    exact ⟨List.replicate IFNAMSIZ 0, by
      simp [requestOf, nameBytes, OpenOptions.device_name, hflags]⟩
  | some n =>
    have hlen : (utf8Encode (Mode.text m ++ Nat.repr n.val)).length ≤ IFNAMSIZ :=
      le_trans (nameLen m n) (by decide)
    refine ⟨utf8Encode (Mode.text m ++ Nat.repr n.val) ++
      List.replicate (IFNAMSIZ - (utf8Encode (Mode.text m ++ Nat.repr n.val)).length) 0, ?_⟩
    simp [requestOf, nameBytes, OpenOptions.device_name, hflags, hlen]

/-- C8: on the Linux backend, after a successful TUNSETIFF control call the
resolved name is exactly the request record's (possibly kernel-rewritten)
name field up to but not including the first zero byte, decoded with the
validating UTF-8 decoder; when those bytes are not valid UTF-8 the call
panics with `"Incorrect filename"` (a visible fatal error), never returning
a value. -/
theorem C8_resolved_name (req : Request) (env : LinuxEnv)
    (h : env.ioctlOk = true) :
    (∀ cs, utf8Decode? (env.rewrittenName.takeWhile (· ≠ 0)) = some cs →
      set_tuntap req env = CallResult.ok (String.mk cs)) ∧
    (utf8Decode? (env.rewrittenName.takeWhile (· ≠ 0)) = none →
      set_tuntap req env = CallResult.panicked "Incorrect filename") := by
  constructor
  · intro cs hcs
    simp only [ne_eq, decide_not] at hcs
    simp [set_tuntap, h, hcs]
  · intro hnone
    simp only [ne_eq, decide_not] at hnone
    simp [set_tuntap, h, hnone]

/-- C8 witness: with the kernel rewriting the name field to the bytes of
`"tun10"` (zero padded) the call resolves to `"tun10"`; with a stray 0xFF
byte it panics with `"Incorrect filename"`. -/
theorem C8_resolved_name_witness :
    set_tuntap req0 envName10 = CallResult.ok (String.mk ['t', 'u', 'n', '1', '0']) ∧
    set_tuntap req0 envNameBad = CallResult.panicked "Incorrect filename" :=
  ⟨(C8_resolved_name req0 envName10 rfl).1 ['t', 'u', 'n', '1', '0'] (by decide),
   (C8_resolved_name req0 envNameBad rfl).2 (by decide)⟩

/-- C10: for every mode and every number in 0..255 (the whole public
surface, `number` being `u8`), the candidate device name encodes to at most
6 bytes, strictly within the 16-byte name field, so the copy into the
zeroed buffer succeeds (no panic), the field stays 16 bytes long, and all
bytes past the name remain zero. -/
theorem C10_name_field_in_bounds (m : Mode) (n : Fin 256) :
    OpenOptions.device_name ⟨m, some n, true, true, false, false⟩ =
      some (Mode.text m ++ Nat.repr n.val) ∧
    (utf8Encode (Mode.text m ++ Nat.repr n.val)).length ≤ 6 ∧
    nameBytes (some (Mode.text m ++ Nat.repr n.val)) =
      Outcome.ok (utf8Encode (Mode.text m ++ Nat.repr n.val) ++
        List.replicate (IFNAMSIZ - (utf8Encode (Mode.text m ++ Nat.repr n.val)).length) 0) ∧
    (utf8Encode (Mode.text m ++ Nat.repr n.val) ++
      List.replicate (IFNAMSIZ - (utf8Encode (Mode.text m ++ Nat.repr n.val)).length) 0).length
      = IFNAMSIZ ∧
    ((utf8Encode (Mode.text m ++ Nat.repr n.val) ++
      List.replicate (IFNAMSIZ - (utf8Encode (Mode.text m ++ Nat.repr n.val)).length) 0).drop
      (utf8Encode (Mode.text m ++ Nat.repr n.val)).length).all (· == 0) = true := by
  cases m <;> (revert n; decide)

end Utuntap
